import Mathlib

/-!
Verification of the SaltyRTC signaling server core (protocol.py) against its
natural-language specification.  The definitions below are a shallow embedding
of the Python source: each Lean definition mirrors one Python function or
method, with the mutable object state passed and returned explicitly.
Exceptions are modelled by explicit result inductives or by Except.
-/

namespace SaltyRTC

/-- Modelled from the spec: ClientState lives in common.py, which is not part
of the given sources.  The spec says the client state is a strictly monotonic
enum Restricted to Authenticated to Dropped. -/
inductive ClientState
  | restricted
  | authenticated
  | dropped
deriving DecidableEq, Repr

/-- Modelled from the spec: transitions are one-directional along
Restricted to Authenticated to Dropped; attempting any other transition is a
programmer error, hence the successor function below is partial in the sense
that the terminal state has no successor. -/
def ClientState.next : ClientState → Option ClientState
  | .restricted => some .authenticated
  | .authenticated => some .dropped
  | .dropped => none

/-- The state setter of PathClient (protocol.py lines 424 to 436): the new
state must be the successor of the current state, otherwise ValueError is
raised (modelled as the error case). -/
def set_state (current new : ClientState) : Except Unit ClientState :=
  if ClientState.next current = some new then Except.ok new else Except.error ()

/-- Modelled from the spec: AddressType (initiator versus responder) lives in
common.py, which is not part of the given sources. -/
inductive AddressType
  | initiator
  | responder
deriving DecidableEq, Repr

/-- PathClient.p2p_allowed (protocol.py lines 688 to 693): relayed messages
are allowed exactly when the client is authenticated and the destination
address type differs from the type of the client. -/
def p2p_allowed (state : ClientState) (ty : Option AddressType)
    (destination_type : AddressType) : Bool :=
  decide (state = ClientState.authenticated) && decide (ty ≠ some destination_type)

/-- A cookie is a byte string (16 bytes on the wire; the length plays no role
in the checked code). -/
abbrev Cookie := List Nat

/-- PathClient.valid_cookie (protocol.py lines 634 to 652).  The first
component of the pair is the returned Bool, the second is the updated
cookie_in field of the client.  cookie_out is the lazily generated server
cookie, fixed for the connection. -/
def valid_cookie (cookie_out : Cookie) (stored : Option Cookie)
    (presented : Cookie) : Bool × Option Cookie :=
  match stored with
  | none =>
    if presented = cookie_out then
      (false, none)
    else
      (true, some presented)
  | some recorded =>
    if presented ≠ recorded then
      (false, some recorded)
    else
      (true, some recorded)

/-- The internal task queue state enum of protocol.py lines 79 to 83. -/
inductive TaskQueueState
  | opened
  | closed
  | cancelled
deriving DecidableEq, Repr

/-- The IntEnum values (open = 1, closed = 2, cancelled = 3) used by the
source in its order comparisons. -/
def TaskQueueState.value : TaskQueueState → Nat
  | .opened => 1
  | .closed => 2
  | .cancelled => 3

/-- The observable status of an asyncio task. -/
inductive TaskStatus
  | pending
  | cancelled
  | done (hasExc : Bool)
deriving DecidableEq, Repr

/-- An awaitable work item of the task queue: either a coroutine (with its
closed flag) or an asyncio task (with its status). -/
inductive Awaitable
  | coroutine (closed : Bool)
  | task (status : TaskStatus)
deriving DecidableEq, Repr

/-- PathClient._cancel_awaitable (protocol.py lines 796 to 834): a coroutine
is closed; a task is cancelled unless it is already cancelled or done. -/
def cancel_awaitable : Awaitable → Awaitable
  | .coroutine _ => .coroutine true
  | .task .pending => .task .cancelled
  | .task s => .task s

/-- The task queue of a PathClient: its lifecycle state and the FIFO of
queued awaitables. -/
structure TaskQueue where
  state : TaskQueueState
  queue : List Awaitable
deriving DecidableEq, Repr

/-- PathClient.enqueue_task (protocol.py lines 695 to 726).  Returns the
updated queue and the awaitable as it stands after the call (cancelled via
cancel_awaitable when it was not enqueued). -/
def enqueue_task (tq : TaskQueue) (awaitable : Awaitable)
    (ignore_closed : Bool) : TaskQueue × Awaitable :=
  if tq.state = TaskQueueState.opened
      ∨ (ignore_closed = true ∧ tq.state = TaskQueueState.closed) then
    ({ tq with queue := tq.queue ++ [awaitable] }, awaitable)
  else
    (tq, cancel_awaitable awaitable)

/-- PathClient.dequeue_task (protocol.py lines 728 to 736): returns the head
of the FIFO; none models blocking on an empty queue. -/
def dequeue_task (tq : TaskQueue) : Option (Awaitable × TaskQueue) :=
  match tq.queue with
  | [] => none
  | a :: rest => some (a, { tq with queue := rest })

/-- PathClient.close_task_queue (protocol.py lines 751 to 766): does nothing
when the state is already closed or cancelled. -/
def close_task_queue (tq : TaskQueue) : TaskQueue :=
  if TaskQueueState.closed.value ≤ tq.state.value then
    tq
  else
    { tq with state := TaskQueueState.closed }

/-- PathClient.cancel_task_queue (protocol.py lines 768 to 794): does nothing
when already cancelled; otherwise advances the state to cancelled and drains
the queue, cancelling every pending item.  The second component returns the
drained items after cancellation. -/
def cancel_task_queue (tq : TaskQueue) : TaskQueue × List Awaitable :=
  if TaskQueueState.cancelled.value ≤ tq.state.value then
    (tq, [])
  else
    (⟨TaskQueueState.cancelled, []⟩, tq.queue.map cancel_awaitable)

/-- A combined sequence number slot: either a live 48-bit counter value or
the terminal overflow sentinel (OverflowSentinel in common.py). -/
inductive Csn
  | live (n : Nat)
  | overflowSentinel
deriving DecidableEq, Repr

/-- PathClient._increment_csn (protocol.py lines 351 to 368): the sentinel is
absorbing; otherwise the value is incremented and becomes the sentinel when
the increment sets any of the bits selected by 0xf000000000000. -/
def increment_csn : Csn → Csn
  | .overflowSentinel => .overflowSentinel
  | .live n =>
    if (n + 1) &&& 0xf000000000000 ≠ 0 then
      .overflowSentinel
    else
      .live (n + 1)

/-- The two exception kinds raised by PathClient.validate_csn_in. -/
inductive CsnError
  | messageError
  | messageFlowError
deriving DecidableEq, Repr

/-- The tail of PathClient.validate_csn_in after the first-message branch
(protocol.py lines 677 to 686): the overflow check followed by the equality
check.  The none case is unreachable from validate_csn_in; in the source an
int never compares equal to None, so it would raise MessageError. -/
def validate_csn_in_rest (stored : Option Csn) (csn_in : Nat) :
    Except CsnError (Option Csn) :=
  match stored with
  | some Csn.overflowSentinel => Except.error CsnError.messageFlowError
  | some (Csn.live v) =>
    if csn_in ≠ v then
      Except.error CsnError.messageError
    else
      Except.ok (some (Csn.live v))
  | none => Except.error CsnError.messageError

/-- PathClient.validate_csn_in (protocol.py lines 654 to 686).  Returns the
updated _csn_in field on acceptance. -/
def validate_csn_in (stored : Option Csn) (csn_in : Nat) :
    Except CsnError (Option Csn) :=
  match stored with
  | none =>
    if csn_in &&& 0xffff00000000 ≠ 0 then
      Except.error CsnError.messageError
    else
      validate_csn_in_rest (some (Csn.live csn_in)) csn_in
  | some c => validate_csn_in_rest (some c) csn_in

/-- Modelled from the spec: the address constants live in common.py, which is
not part of the given sources; 0x01 is the initiator address. -/
def INITIATOR_ADDRESS : Nat := 0x01

/-- Modelled from the spec: ResponderAddress in common.py accepts exactly the
responder slot addresses 0x02 to 0xff; constructing one from a value outside
this range raises ValueError. -/
def ResponderAddress.valid (n : Nat) : Bool :=
  decide (0x02 ≤ n) && decide (n ≤ 0xff)

/-- A client as seen by the Path: tag stands for the Python object identity
(two values denote the same object exactly when the tags are equal), together
with the state and assigned id fields read by the Path operations. -/
structure PClient where
  tag : Nat
  state : ClientState
  id : Nat
deriving DecidableEq, Repr

/-- Python dict assignment d at key k becomes v: replaces in place when the
key is present (keeping insertion order), otherwise appends. -/
def dictSet (d : List (Nat × PClient)) (k : Nat) (v : PClient) :
    List (Nat × PClient) :=
  if d.any (fun kv => kv.1 == k) then
    d.map (fun kv => if kv.1 == k then (k, v) else kv)
  else
    d ++ [(k, v)]

/-- Python del of key k on a dict: none models the KeyError raised when the
key is absent. -/
def dictDel (d : List (Nat × PClient)) (k : Nat) :
    Option (List (Nat × PClient)) :=
  if d.any (fun kv => kv.1 == k) then
    some (d.filter (fun kv => kv.1 != k))
  else
    none

/-- The responder table of a Path together with the optional initiator slot
(protocol.py lines 86 to 101). -/
structure Path where
  initiator : Option PClient
  responders : List (Nat × PClient)
deriving DecidableEq, Repr

/-- PathClient.authenticate (protocol.py lines 611 to 623) through the state
setter: succeeds exactly when the client was restricted, updating the state
and the assigned id of the same object (same tag). -/
def authenticate (c : PClient) (id_ : Nat) : Option PClient :=
  match set_state c.state ClientState.authenticated with
  | Except.ok s => some { c with state := s, id := id_ }
  | Except.error _ => none

/-- Result of Path.add_responder: the assigned slot and new path, or
SlotsFullError (raised before any mutation), or a ValueError from
authenticate (raised after the table was already mutated). -/
inductive AddResult
  | ok (id : Nat) (path : Path)
  | slotsFull
  | valueError (path : Path)
deriving DecidableEq, Repr

/-- Path.add_responder (protocol.py lines 187 to 215): the slot id is
computed as the number of responder entries plus 0x02; converting that value
to a ResponderAddress fails with SlotsFullError when it is out of range,
before any mutation; otherwise the responder is stored under that id and then
authenticated.  The stored entry reflects the authentication because the dict
holds the same object; when authenticate raises ValueError the table keeps
the still restricted client (the valueError case). -/
def Path.add_responder (p : Path) (c : PClient) : AddResult :=
  let idNat := p.responders.length + 0x02
  if ResponderAddress.valid idNat then
    match authenticate c idNat with
    | some c2 =>
      AddResult.ok idNat { p with responders := dictSet p.responders idNat c2 }
    | none =>
      AddResult.valueError { p with responders := dictSet p.responders idNat c }
  else
    AddResult.slotsFull

/-- Result of Path.remove_client: the new path, or a KeyError. -/
inductive RemoveResult
  | ok (path : Path)
  | keyError
deriving DecidableEq, Repr

/-- Path.remove_client (protocol.py lines 217 to 251): a restricted client is
ignored; for the initiator address, get_initiator raises KeyError when the
slot is empty, and a mismatching occupant (identity comparison) makes the
call a no-op; for a responder id the entry is deleted with del, which raises
KeyError when the key is absent; an id that is no valid responder address
raises KeyError. -/
def Path.remove_client (p : Path) (c : PClient) : RemoveResult :=
  if c.state = ClientState.restricted then
    RemoveResult.ok p
  else if c.id = INITIATOR_ADDRESS then
    match p.initiator with
    | none => RemoveResult.keyError
    | some cur =>
      if cur.tag ≠ c.tag then
        RemoveResult.ok p
      else
        RemoveResult.ok { p with initiator := none }
  else if ResponderAddress.valid c.id then
    match dictDel p.responders c.id with
    | some d => RemoveResult.ok { p with responders := d }
    | none => RemoveResult.keyError
  else
    RemoveResult.keyError

/-- The task triad flags of PathClientTasks (protocol.py lines 254 to 320):
the cancellation request flag and whether the receive and keep alive loops
have been cancelled. -/
structure Tasks where
  cancelledFlag : Bool
  receiveCancelled : Bool
  keepAliveCancelled : Bool
deriving DecidableEq, Repr

/-- PathClientTasks.cancel_all_but_task_loop (protocol.py lines 311 to 320):
ignored when already requested (unless forced); otherwise cancels every loop
except the task loop and records the request. -/
def cancel_all_but_task_loop (t : Tasks) (force : Bool) : Tasks :=
  if t.cancelledFlag = true ∧ force = false then
    t
  else
    ⟨true, true, true⟩

/-- The portion of a PathClient acted on synchronously by drop. -/
structure DropClient where
  state : ClientState
  taskQueue : TaskQueue
  tasks : Tasks
deriving DecidableEq, Repr

/-- PathClient.drop (protocol.py lines 929 to 969).  The enqueue of the close
coroutine is scheduled as a separate task on the event loop and runs only
after this method returns, so it is not part of the synchronous effects
modelled here.  The synchronous order is: close the task queue, cancel the
receive and keep alive loops, then advance the state to dropped through the
state setter.  A ValueError from the setter propagates only after the earlier
mutations, so the error case carries the already mutated client. -/
def drop (c : DropClient) : Except DropClient DropClient :=
  let c1 : DropClient := { c with taskQueue := close_task_queue c.taskQueue }
  let c2 : DropClient :=
    { c1 with tasks := cancel_all_but_task_loop c1.tasks false }
  match set_state c2.state ClientState.dropped with
  | Except.ok s => Except.ok { c2 with state := s }
  | Except.error _ => Except.error c2

end SaltyRTC

namespace SaltyRTC

lemma testBit_mask_in (i : Nat) :
    (0xffff00000000 : Nat).testBit i = (decide (32 ≤ i) && decide (i < 48)) := by
  have hm : (0xffff00000000 : Nat) = 2 ^ 32 * (2 ^ 16 - 1) := by norm_num
  rw [hm, Nat.testBit_mul_pow_two, Nat.testBit_two_pow_sub_one]
  by_cases h : 32 ≤ i
  · have h2 : (i - 32 < 16) ↔ (i < 48) := by omega
    simp [h, h2]
  · simp [h]

lemma testBit_mask_ovf (i : Nat) :
    (0xf000000000000 : Nat).testBit i = (decide (48 ≤ i) && decide (i < 52)) := by
  have hm : (0xf000000000000 : Nat) = 2 ^ 48 * (2 ^ 4 - 1) := by norm_num
  rw [hm, Nat.testBit_mul_pow_two, Nat.testBit_two_pow_sub_one]
  by_cases h : 48 ≤ i
  · have h2 : (i - 48 < 4) ↔ (i < 52) := by omega
    simp [h, h2]
  · simp [h]

lemma land_mask_in_eq_zero {n : Nat} (h : n < 2 ^ 32) :
    n &&& 0xffff00000000 = 0 := by
  apply Nat.eq_of_testBit_eq
  intro i
  rw [Nat.testBit_and, testBit_mask_in, Nat.zero_testBit]
  by_cases h32 : 32 ≤ i
  · have hlt : n < 2 ^ i :=
      lt_of_lt_of_le h (Nat.pow_le_pow_right (by norm_num) h32)
    simp [Nat.testBit_lt_two_pow hlt]
  · simp [h32]

lemma land_mask_in_ne_zero {n : Nat} (h1 : 2 ^ 32 ≤ n) (h2 : n < 2 ^ 48) :
    n &&& 0xffff00000000 ≠ 0 := by
  intro h0
  have hbits : ∀ i, 32 ≤ i → n.testBit i = false := by
    intro i hi
    by_cases h48 : i < 48
    · have hb := congrArg (fun m => m.testBit i) h0
      simp only [Nat.testBit_and, testBit_mask_in, Nat.zero_testBit] at hb
      simpa [hi, h48] using hb
    · have hle : 48 ≤ i := by omega
      exact Nat.testBit_lt_two_pow
        (lt_of_lt_of_le h2 (Nat.pow_le_pow_right (by norm_num) hle))
  have hlt : n < 2 ^ 32 := Nat.lt_pow_two_of_testBit n hbits
  exact absurd hlt (Nat.not_lt.mpr h1)

lemma land_mask_ovf_eq_zero {m : Nat} (h : m < 2 ^ 48) :
    m &&& 0xf000000000000 = 0 := by
  apply Nat.eq_of_testBit_eq
  intro i
  rw [Nat.testBit_and, testBit_mask_ovf, Nat.zero_testBit]
  by_cases h48 : 48 ≤ i
  · have hlt : m < 2 ^ i :=
      lt_of_lt_of_le h (Nat.pow_le_pow_right (by norm_num) h48)
    simp [Nat.testBit_lt_two_pow hlt]
  · simp [h48]

lemma land_mask_ovf_two_pow_48 : (2 ^ 48 : Nat) &&& 0xf000000000000 ≠ 0 := by
  intro h0
  have hb := congrArg (fun m => m.testBit 48) h0
  simp only [Nat.testBit_and, testBit_mask_ovf, Nat.zero_testBit,
    Nat.testBit_two_pow_self] at hb
  simp at hb

/-- Claim C4: for 0 ≤ csn ≤ 0xffffffffffff the increment returns the
overflow sentinel exactly at the maximal 48-bit value and csn + 1 otherwise,
and the sentinel is absorbing. -/
theorem increment_csn_spec (n : Nat) (h : n ≤ 0xffffffffffff) :
    increment_csn (Csn.live n)
      = (if n = 0xffffffffffff then Csn.overflowSentinel else Csn.live (n + 1))
    ∧ increment_csn Csn.overflowSentinel = Csn.overflowSentinel := by
  constructor
  · by_cases hmax : n = 0xffffffffffff
    · subst hmax
      have h48 : (0xffffffffffff : Nat) + 1 = 2 ^ 48 := by norm_num
      simp [increment_csn, h48, land_mask_ovf_two_pow_48]
    · have hlt : n + 1 < 2 ^ 48 := by
        have he : (0xffffffffffff : Nat) = 2 ^ 48 - 1 := by norm_num
        have hp : (0 : Nat) < 2 ^ 48 := by positivity
        omega
      simp [increment_csn, land_mask_ovf_eq_zero hlt, hmax]
  · rfl

/-- Witness for C4 at concrete inputs. -/
theorem increment_csn_spec_witness :
    increment_csn (Csn.live 41)
      = (if (41 : Nat) = 0xffffffffffff then Csn.overflowSentinel
          else Csn.live (41 + 1))
    ∧ increment_csn Csn.overflowSentinel = Csn.overflowSentinel :=
  increment_csn_spec 41 (by norm_num)

/-- Claim C3: for a 48-bit csn, with no incoming CSN recorded the validation
fails with MessageError exactly when the top 16 bits are non-zero (that is,
when 2 ^ 32 ≤ csn) and otherwise records csn and accepts; with the overflow
sentinel recorded it fails with MessageFlowError; with a live value recorded
it fails with MessageError exactly when csn differs from it and otherwise
accepts. -/
theorem validate_csn_in_spec (csn : Nat) (h : csn < 2 ^ 48) :
    ((2 ^ 32 ≤ csn →
        validate_csn_in none csn = Except.error CsnError.messageError)
      ∧ (csn < 2 ^ 32 →
        validate_csn_in none csn = Except.ok (some (Csn.live csn))))
    ∧ validate_csn_in (some Csn.overflowSentinel) csn
        = Except.error CsnError.messageFlowError
    ∧ (∀ v, csn ≠ v →
        validate_csn_in (some (Csn.live v)) csn
          = Except.error CsnError.messageError)
    ∧ (∀ v, csn = v →
        validate_csn_in (some (Csn.live v)) csn
          = Except.ok (some (Csn.live v))) := by
  refine ⟨⟨?_, ?_⟩, rfl, ?_, ?_⟩
  · intro hge
    simp [validate_csn_in, land_mask_in_ne_zero hge h]
  · intro hlt
    simp [validate_csn_in, land_mask_in_eq_zero hlt, validate_csn_in_rest]
  · intro v hne
    simp [validate_csn_in, validate_csn_in_rest, hne]
  · intro v heq
    simp [validate_csn_in, validate_csn_in_rest, heq]

/-- Witness for C3 at a concrete input: a first message with zero top bits is
recorded and accepted. -/
theorem validate_csn_in_spec_witness :
    validate_csn_in none 5 = Except.ok (some (Csn.live 5)) :=
  ((validate_csn_in_spec 5 (by norm_num)).1).2 (by norm_num)

/-- Claim C8: p2p_allowed returns true if and only if the client is in state
Authenticated and the destination address type differs from the own type of
the client; in every other case (Restricted, Dropped, or same type) it
returns false. -/
theorem p2p_allowed_spec (s : ClientState) (ty : Option AddressType)
    (t : AddressType) :
    (p2p_allowed s ty t = true ↔ (s = ClientState.authenticated ∧ ty ≠ some t))
    ∧ (s ≠ ClientState.authenticated → p2p_allowed s ty t = false)
    ∧ (ty = some t → p2p_allowed s ty t = false) := by
  refine ⟨?_, ?_, ?_⟩
  · simp [p2p_allowed]
  · intro h
    simp [p2p_allowed, h]
  · intro h
    simp [p2p_allowed, h]

/-- Witness for C8 at a concrete input: an authenticated initiator may relay
to a responder. -/
theorem p2p_allowed_spec_witness :
    p2p_allowed ClientState.authenticated (some AddressType.initiator)
      AddressType.responder = true :=
  (p2p_allowed_spec ClientState.authenticated (some AddressType.initiator)
    AddressType.responder).1.mpr ⟨rfl, by decide⟩

/-- Claim C5: on the first call (no client cookie recorded) valid_cookie
returns false exactly when the presented cookie equals the server outbound
cookie, and otherwise records the presented cookie and returns true; on every
later call it returns true exactly when the presented cookie equals the
recorded cookie, and the recorded cookie is unchanged. -/
theorem valid_cookie_spec (co : Cookie) (c : Cookie) :
    (((valid_cookie co none c).1 = false ↔ c = co)
      ∧ (c ≠ co → valid_cookie co none c = (true, some c)))
    ∧ (∀ r : Cookie,
        ((valid_cookie co (some r) c).1 = true ↔ c = r)
        ∧ (valid_cookie co (some r) c).2 = some r) := by
  constructor
  · constructor
    · by_cases h : c = co <;> simp [valid_cookie, h]
    · intro h
      simp [valid_cookie, h]
  · intro r
    constructor
    · by_cases h : c = r <;> simp [valid_cookie, h]
    · by_cases h : c = r <;> simp [valid_cookie, h]

/-- Witness for C5 at concrete inputs: a first cookie different from the
server cookie is recorded and accepted. -/
theorem valid_cookie_spec_witness :
    valid_cookie [1] none [2] = (true, some [2]) :=
  (valid_cookie_spec [1] [2]).1.2 (by decide)

/-- Claim C9: when the first valid_cookie call rejects because the presented
cookie equals the server outbound cookie, no client cookie is recorded; a
subsequent call is still treated as the first message and a differing cookie
presented then is recorded and accepted. -/
theorem valid_cookie_reject_preserves (co c2 : Cookie) (h : c2 ≠ co) :
    valid_cookie co none co = (false, none)
    ∧ valid_cookie co none c2 = (true, some c2) := by
  constructor
  · simp [valid_cookie]
  · simp [valid_cookie, h]

/-- Witness for C9 at concrete inputs. -/
theorem valid_cookie_reject_preserves_witness :
    valid_cookie [7] none [7] = (false, none)
    ∧ valid_cookie [7] none [8] = (true, some [8]) :=
  valid_cookie_reject_preserves [7] [8] (by decide)

/-- Claim C6: enqueue_task appends the item exactly when the queue state is
open, or closed with ignore_closed set; in every other case (closed without
ignore_closed, or cancelled) the queue is unchanged and the item is
immediately cancelled: a coroutine is closed without running and a pending
task is cancelled. -/
theorem enqueue_task_spec (tq : TaskQueue) (a : Awaitable) (ic : Bool) :
    ((tq.state = TaskQueueState.opened
        ∨ (tq.state = TaskQueueState.closed ∧ ic = true)) →
      enqueue_task tq a ic = ({ tq with queue := tq.queue ++ [a] }, a))
    ∧ (((tq.state = TaskQueueState.closed ∧ ic = false)
        ∨ tq.state = TaskQueueState.cancelled) →
      (enqueue_task tq a ic).1 = tq
      ∧ (enqueue_task tq a ic).2 = cancel_awaitable a
      ∧ (∀ b, cancel_awaitable (Awaitable.coroutine b) = Awaitable.coroutine true)
      ∧ cancel_awaitable (Awaitable.task TaskStatus.pending)
          = Awaitable.task TaskStatus.cancelled) := by
  constructor
  · intro h
    rcases h with h | ⟨h1, h2⟩
    · simp [enqueue_task, h]
    · simp [enqueue_task, h1, h2]
  · intro h
    have hcond : ¬ (tq.state = TaskQueueState.opened
        ∨ (ic = true ∧ tq.state = TaskQueueState.closed)) := by
      rcases h with ⟨h1, h2⟩ | h1
      · simp [h1, h2]
      · simp [h1]
    refine ⟨by simp [enqueue_task, hcond], by simp [enqueue_task, hcond],
      fun b => rfl, rfl⟩

/-- Witness for C6 at a concrete input: enqueuing a pending task into a
cancelled queue cancels the task and leaves the queue unchanged. -/
theorem enqueue_task_spec_witness :
    (enqueue_task ⟨TaskQueueState.cancelled, []⟩
        (Awaitable.task TaskStatus.pending) true).2
      = Awaitable.task TaskStatus.cancelled := by
  have h := (enqueue_task_spec ⟨TaskQueueState.cancelled, []⟩
    (Awaitable.task TaskStatus.pending) true).2 (Or.inr rfl)
  rw [h.2.1]
  rfl

/-- Claim C7: the task queue state only advances in the order open, closed,
cancelled under close_task_queue, cancel_task_queue, enqueue_task and
dequeue_task; close_task_queue is a no-op when the state is already closed or
cancelled (so a second consecutive close changes nothing) and
cancel_task_queue is a no-op when the state is already cancelled. -/
theorem task_queue_state_monotone (tq : TaskQueue) :
    tq.state.value ≤ (close_task_queue tq).state.value
    ∧ tq.state.value ≤ (cancel_task_queue tq).1.state.value
    ∧ (∀ a ic, (enqueue_task tq a ic).1.state = tq.state)
    ∧ (∀ a tq2, dequeue_task tq = some (a, tq2) → tq2.state = tq.state)
    ∧ close_task_queue (close_task_queue tq) = close_task_queue tq
    ∧ (tq.state ≠ TaskQueueState.opened → close_task_queue tq = tq)
    ∧ (tq.state = TaskQueueState.cancelled → cancel_task_queue tq = (tq, [])) := by
  obtain ⟨s, q⟩ := tq
  refine ⟨?_, ?_, ?_, ?_, ?_, ?_, ?_⟩
  · cases s <;> simp [close_task_queue, TaskQueueState.value]
  · cases s <;> simp [cancel_task_queue, TaskQueueState.value]
  · intro a ic
    by_cases h : (⟨s, q⟩ : TaskQueue).state = TaskQueueState.opened
        ∨ (ic = true ∧ (⟨s, q⟩ : TaskQueue).state = TaskQueueState.closed)
    · simp [enqueue_task, h]
    · simp [enqueue_task, h]
  · intro a tq2 h
    cases q with
    | nil => simp [dequeue_task] at h
    | cons x rest =>
      simp only [dequeue_task, Option.some.injEq, Prod.mk.injEq] at h
      rw [← h.2]
  · cases s <;> simp [close_task_queue, TaskQueueState.value]
  · intro h
    cases s <;> simp_all [close_task_queue, TaskQueueState.value]
  · intro h
    cases s <;> simp_all [cancel_task_queue, TaskQueueState.value]

/-- Witness for C7 at a concrete input: a second close of a closed queue and
a cancel of a cancelled queue change nothing. -/
theorem task_queue_state_monotone_witness :
    close_task_queue ⟨TaskQueueState.closed, []⟩ = ⟨TaskQueueState.closed, []⟩
    ∧ cancel_task_queue ⟨TaskQueueState.cancelled, []⟩
        = (⟨TaskQueueState.cancelled, []⟩, []) := by
  have h := task_queue_state_monotone ⟨TaskQueueState.closed, []⟩
  have h2 := task_queue_state_monotone ⟨TaskQueueState.cancelled, []⟩
  exact ⟨h.2.2.2.2.2.1 (by decide), h2.2.2.2.2.2.2 rfl⟩

/-- Claim C1 is refuted by this concrete run: from the empty path, two
responders receive the slots 0x02 and 0x03; after the responder at slot 0x02
leaves, slot 0x02 is free and valid, yet add_responder assigns slot
0x03 = length of the table plus 0x02 to the next restricted client,
silently overwriting the authenticated responder still installed there,
instead of the smallest unoccupied slot 0x02. -/
theorem add_responder_not_smallest_free :
    Path.add_responder ⟨none, []⟩ ⟨1, ClientState.restricted, 0⟩
      = AddResult.ok 2 ⟨none, [(2, ⟨1, ClientState.authenticated, 2⟩)]⟩
    ∧ Path.add_responder ⟨none, [(2, ⟨1, ClientState.authenticated, 2⟩)]⟩
        ⟨2, ClientState.restricted, 0⟩
      = AddResult.ok 3 ⟨none, [(2, ⟨1, ClientState.authenticated, 2⟩),
          (3, ⟨2, ClientState.authenticated, 3⟩)]⟩
    ∧ Path.remove_client ⟨none, [(2, ⟨1, ClientState.authenticated, 2⟩),
          (3, ⟨2, ClientState.authenticated, 3⟩)]⟩
        ⟨1, ClientState.authenticated, 2⟩
      = RemoveResult.ok ⟨none, [(3, ⟨2, ClientState.authenticated, 3⟩)]⟩
    ∧ Path.add_responder ⟨none, [(3, ⟨2, ClientState.authenticated, 3⟩)]⟩
        ⟨3, ClientState.restricted, 0⟩
      = AddResult.ok 3 ⟨none, [(3, ⟨3, ClientState.authenticated, 3⟩)]⟩
    ∧ ResponderAddress.valid 2 = true
    ∧ (⟨none, [(3, ⟨2, ClientState.authenticated, 3⟩)]⟩ : Path).responders.any
        (fun kv => kv.1 == 2) = false := by
  decide

/-- Claim C2 is refuted by these concrete runs: removing the current
initiator twice makes the second call raise KeyError (get_initiator raises on
the empty slot), and removing a responder twice makes the second call raise
KeyError (del on the absent key), so remove_client is not idempotent. -/
theorem remove_client_not_idempotent :
    Path.remove_client ⟨some ⟨1, ClientState.authenticated, 1⟩, []⟩
      ⟨1, ClientState.authenticated, 1⟩ = RemoveResult.ok ⟨none, []⟩
    ∧ Path.remove_client ⟨none, []⟩ ⟨1, ClientState.authenticated, 1⟩
      = RemoveResult.keyError
    ∧ Path.remove_client ⟨none, [(2, ⟨2, ClientState.authenticated, 2⟩)]⟩
      ⟨2, ClientState.authenticated, 2⟩ = RemoveResult.ok ⟨none, []⟩
    ∧ Path.remove_client ⟨none, []⟩ ⟨2, ClientState.authenticated, 2⟩
      = RemoveResult.keyError := by
  decide

/-- Claim C10: drop succeeds exactly on an authenticated client; on a
restricted or dropped client it fails with ValueError from the state setter,
and the failure carries a client whose task queue has already been closed and
whose receive and keep alive loops have already been cancelled, so a failing
drop is not atomic; in particular an open queue is left closed. -/
theorem drop_spec (c : DropClient) :
    (c.state = ClientState.authenticated →
      drop c = Except.ok
        { state := ClientState.dropped,
          taskQueue := close_task_queue c.taskQueue,
          tasks := cancel_all_but_task_loop c.tasks false })
    ∧ ((c.state = ClientState.restricted ∨ c.state = ClientState.dropped) →
      drop c = Except.error
        { state := c.state,
          taskQueue := close_task_queue c.taskQueue,
          tasks := cancel_all_but_task_loop c.tasks false }
      ∧ (c.taskQueue.state = TaskQueueState.opened →
          (close_task_queue c.taskQueue).state = TaskQueueState.closed)) := by
  obtain ⟨s, tq, t⟩ := c
  constructor
  · intro h
    subst h
    simp [drop, set_state, ClientState.next]
  · intro h
    constructor
    · rcases h with h | h <;> subst h <;>
        simp [drop, set_state, ClientState.next]
    · intro hq
      have hq2 : tq.state = TaskQueueState.opened := hq
      simp [close_task_queue, hq2, TaskQueueState.value]

/-- Witness for C10 at a concrete input: dropping a restricted client fails
with ValueError but leaves the queue closed and the loops cancelled. -/
theorem drop_spec_witness :
    drop ⟨ClientState.restricted, ⟨TaskQueueState.opened, []⟩,
        ⟨false, false, false⟩⟩
      = Except.error ⟨ClientState.restricted, ⟨TaskQueueState.closed, []⟩,
        ⟨true, true, true⟩⟩ := by
  have h := (drop_spec ⟨ClientState.restricted, ⟨TaskQueueState.opened, []⟩,
    ⟨false, false, false⟩⟩).2 (Or.inl rfl)
  exact h.1

end SaltyRTC
